import Mathlib

/-!
Verification development for the Pi_Eyes animatronic control core.

Shallow embedding of: the eye actor's UDP decode and message-processing
state machine and its per-frame eyelid computation (eyes.py), the
controller-side gaze encoder (controller.py), the thermal tracker's
centroid and eye-position encoding (services/thermal_tracker/
thermal_tracker.py), the animation bundle store (editor/
animation_protocol.py) and the bundle player's no-audio playback loop
(editor/bundlePlayer.py).

Modelling conventions: Python floats are modelled as exact rationals;
Python int() is truncation toward zero; a raised-and-uncaught Python
exception is modelled as Option.none or Except.error at the point the
source raises it.
-/

namespace PiEyes

/-- Python int() applied to a real value: truncation toward zero. -/
def pyInt (q : ℚ) : ℤ := if 0 ≤ q then ⌊q⌋ else ⌈q⌉

/-- Python two-decimal formatting followed by float(): the value is
replaced by its rounding to the nearest multiple of 1/100.  Python's
.2f rounds half-to-even on the underlying double; every value this
development feeds through it is a multiple of 1/255, for which an exact
tie at a half-hundredth is impossible (100k/255 = 20k/51 is a
half-integer for no integer k), so round-half-up on the exact rational
coincides with the source's behaviour. -/
def pyRound2 (q : ℚ) : ℚ := (⌊q * 100 + 1/2⌋ : ℤ) / 100

/-- The decoded form of one eye-actor UDP datagram: one constructor per
string produced by decode_message in eyes.py.  Numeric payloads carry
the rational value denoted by the formatted string. -/
inductive Msg where
  | joystick_disconnected
  | joystick_connected
  | auto_movement_off
  | auto_movement_on
  | auto_blink_off
  | auto_blink_on
  | auto_pupil_off
  | auto_pupil_on
  | joystick (x y : ℚ)
  | left_eyelid (p : ℚ)
  | right_eyelid (p : ℚ)
  | blink_left_start
  | blink_left_end
  | blink_right_start
  | blink_right_end
  | blink_both_start
  | blink_both_end
  deriving DecidableEq

/-- eyes.py decode_message (lines 282-322).  Option.none models an
uncaught Python exception: IndexError on an empty datagram, struct.error
on a payload shorter than the opcode requires, ValueError on an opcode
outside the table.  For 0x20/0x30/0x31 the returned string carries the
byte divided by 255 formatted with two decimal places, which
process_udp_messages later parses back with float(). -/
def decode_message : List ℕ → Option Msg
  | [] => Option.none
  | b :: rest =>
    if b = 0x00 then some .joystick_disconnected
    else if b = 0x01 then some .joystick_connected
    else if b = 0x10 then some .auto_movement_off
    else if b = 0x11 then some .auto_movement_on
    else if b = 0x12 then some .auto_blink_off
    else if b = 0x13 then some .auto_blink_on
    else if b = 0x14 then some .auto_pupil_off
    else if b = 0x15 then some .auto_pupil_on
    else if b = 0x20 then
      match rest with
      | x :: y :: _ =>
        some (.joystick (pyRound2 ((x : ℚ) / 255)) (pyRound2 ((y : ℚ) / 255)))
      | _ => Option.none
    else if b = 0x30 then
      match rest with
      | p :: _ => some (.left_eyelid (pyRound2 ((p : ℚ) / 255)))
      | _ => Option.none
    else if b = 0x31 then
      match rest with
      | p :: _ => some (.right_eyelid (pyRound2 ((p : ℚ) / 255)))
      | _ => Option.none
    else if b = 0x40 then some .blink_left_start
    else if b = 0x41 then some .blink_left_end
    else if b = 0x42 then some .blink_right_start
    else if b = 0x43 then some .blink_right_end
    else if b = 0x44 then some .blink_both_start
    else if b = 0x45 then some .blink_both_end
    else Option.none

/-- The eyes.py module globals read and written by process_udp_messages
(eyes.py lines 29-43). -/
structure EyeState where
  auto_movement : Bool
  auto_blink : Bool
  auto_pupil : Bool
  joystick_x : ℚ
  joystick_y : ℚ
  blink_left_active : Bool
  blink_right_active : Bool
  joystick_connected : Bool
  prev_auto_movement : Bool
  prev_auto_blink : Bool
  prev_auto_pupil : Bool
  left_eyelid_position : ℚ
  right_eyelid_position : ℚ
  deriving DecidableEq

/-- The initial values of the eyes.py control globals (lines 29-43). -/
def initial_eye_state : EyeState where
  auto_movement := true
  auto_blink := true
  auto_pupil := true
  joystick_x := 0
  joystick_y := 0
  blink_left_active := false
  blink_right_active := false
  joystick_connected := false
  prev_auto_movement := true
  prev_auto_blink := true
  prev_auto_pupil := true
  left_eyelid_position := 0
  right_eyelid_position := 0

/-- One iteration of the message loop of eyes.py process_udp_messages
(lines 327-396): the effect of a single decoded message on the actor
state. -/
def apply_udp_message (s : EyeState) : Msg → EyeState
  | .joystick_connected =>
    { s with joystick_connected := true
             prev_auto_movement := s.auto_movement
             prev_auto_blink := s.auto_blink
             prev_auto_pupil := s.auto_pupil
             auto_movement := false }
  | .joystick_disconnected =>
    { s with joystick_connected := false
             auto_movement := s.prev_auto_movement
             auto_blink := s.prev_auto_blink
             auto_pupil := s.prev_auto_pupil }
  | .auto_movement_on =>
    let s := if s.joystick_connected then s else { s with auto_movement := true }
    { s with prev_auto_movement := true }
  | .auto_movement_off =>
    let s := if s.joystick_connected then s else { s with auto_movement := false }
    { s with prev_auto_movement := false }
  | .auto_blink_on =>
    let s := if s.joystick_connected then s else { s with auto_blink := true }
    { s with prev_auto_blink := true }
  | .auto_blink_off =>
    let s := if s.joystick_connected then s else { s with auto_blink := false }
    { s with prev_auto_blink := false }
  | .auto_pupil_on =>
    let s := if s.joystick_connected then s else { s with auto_pupil := true }
    { s with prev_auto_pupil := true }
  | .auto_pupil_off =>
    let s := if s.joystick_connected then s else { s with auto_pupil := false }
    { s with prev_auto_pupil := false }
  | .left_eyelid p => { s with left_eyelid_position := p }
  | .right_eyelid p => { s with right_eyelid_position := p }
  | .joystick x y =>
    if s.joystick_connected then { s with joystick_x := x, joystick_y := y } else s
  | .blink_left_start => { s with blink_left_active := true }
  | .blink_left_end => { s with blink_left_active := false }
  | .blink_right_start => { s with blink_right_active := true }
  | .blink_right_end => { s with blink_right_active := false }
  | .blink_both_start => { s with blink_left_active := true, blink_right_active := true }
  | .blink_both_end => { s with blink_left_active := false, blink_right_active := false }

/-- eyes.py process_udp_messages: drain a queue of decoded messages,
applying each in arrival order. -/
def process_udp_messages (s : EyeState) (msgs : List Msg) : EyeState :=
  msgs.foldl apply_udp_message s

/-- The datagrams-to-messages behaviour of udp_thread in eyes.py
(lines 265-272): its try block catches only socket.error, so the first
datagram on which decode_message raises terminates the thread function,
and every later datagram is never received into the message queue. -/
def udp_thread_run : List (List ℕ) → List Msg
  | [] => []
  | d :: ds =>
    match decode_message d with
    | some m => m :: udp_thread_run ds
    | Option.none => []

/-- The rendered per-frame eyelid quantities of eyes.py frame(). -/
structure FrameLids where
  leftUpperLidWeight : ℚ
  leftLowerLidWeight : ℚ
  rightUpperLidWeight : ℚ
  rightLowerLidWeight : ℚ
  left_eyelid_position : ℚ
  right_eyelid_position : ℚ
  trackingPos : ℚ
  deriving DecidableEq

/-- The eyelid part of eyes.py frame() (lines 595-649) in the default
configuration (TRACKING = True, CRAZY_EYES = False, BLINK_PIN = None).
Inputs are the relevant globals before the frame; the output holds the
four lid weights used to build the frame's eyelid meshes together with
the updated left/right_eyelid_position and trackingPos.  Lines 597-605
overwrite the UDP-commanded eyelid positions from the blink latches
before lines 644-649 read them back. -/
def frame_eyelids (auto_blink blink_left_active blink_right_active : Bool)
    (left_eyelid_position right_eyelid_position trackingPos curY : ℚ) : FrameLids :=
  let left_eyelid_position : ℚ := if blink_left_active then 1 else 0
  let right_eyelid_position : ℚ := if blink_right_active then 1 else 0
  let n : ℚ := max 0 (min 1 (2/5 - curY / 60))
  let trackingPos := (trackingPos * 3 + n) * (1/4)
  let leftUpperLidWeight := if blink_left_active then 1 else trackingPos
  let leftLowerLidWeight := if blink_left_active then 1 else 1 - trackingPos
  let rightUpperLidWeight := if blink_right_active then 1 else trackingPos
  let rightLowerLidWeight := if blink_right_active then 1 else 1 - trackingPos
  if !auto_blink && !(blink_left_active || blink_right_active) then
    { leftUpperLidWeight := left_eyelid_position
      leftLowerLidWeight := left_eyelid_position
      rightUpperLidWeight := right_eyelid_position
      rightLowerLidWeight := right_eyelid_position
      left_eyelid_position := left_eyelid_position
      right_eyelid_position := right_eyelid_position
      trackingPos := trackingPos }
  else
    { leftUpperLidWeight := leftUpperLidWeight
      leftLowerLidWeight := leftLowerLidWeight
      rightUpperLidWeight := rightUpperLidWeight
      rightLowerLidWeight := rightLowerLidWeight
      left_eyelid_position := left_eyelid_position
      right_eyelid_position := right_eyelid_position
      trackingPos := trackingPos }

/-- controller.py encode_message, joystick branch (lines 65-69): one gaze
coordinate is scaled by 255 and truncated by int() to give the wire
byte. -/
def encode_gaze_byte (x : ℚ) : ℤ := pyInt (x * 255)

/-- eyes.py decode_message, 0x20 branch (lines 300-302): the wire byte is
divided by 255 and formatted with two decimal places; process_udp_messages
then parses that string back with float().  The decoded value is therefore
the two-decimal rounding of b/255. -/
def decode_gaze_byte (b : ℤ) : ℚ := pyRound2 ((b : ℚ) / 255)

/-- The AMG8833 grid coordinates used by thermal_tracker.py
calculate_gaze_direction: rows top to bottom and columns left to right
both use these eight values. -/
def amg_coords : List ℚ := [7/2, 5/2, 3/2, 1/2, -1/2, -3/2, -5/2, -7/2]

/-- The 64 (x_pos, y_pos) pairs in the iteration order of the nested
loops of calculate_gaze_direction: the outer loop walks rows (y_pos),
the inner loop walks columns (x_pos), and the flat pixel index follows
the inner loop. -/
def amg_positions : List (ℚ × ℚ) :=
  (amg_coords.map fun y_pos => amg_coords.map fun x_pos => (x_pos, y_pos)).flatten

/-- The loop body of calculate_gaze_direction: accumulate the weighted
x and y sums and track the temperature range.  The accumulator is
(x, y, min_val, max_val). -/
def gaze_step (acc : ℚ × ℚ × ℚ × ℚ) (pt : (ℚ × ℚ) × ℚ) : ℚ × ℚ × ℚ × ℚ :=
  (acc.1 + pt.1.1 * pt.2, acc.2.1 + pt.1.2 * pt.2,
   min acc.2.2.1 pt.2, max acc.2.2.2 pt.2)

/-- thermal_tracker.py ThermalTracker.calculate_gaze_direction
(lines 116-166).  Option.none models the raised ValueError when the
pixel array does not have exactly 64 entries.  min_val/max_val start at
100.0/0.0 as in the source; min_val is tracked but unused. -/
def calculate_gaze_direction (sensitivity : ℚ) (pixels : List ℚ) :
    Option (ℚ × ℚ × ℚ) :=
  if pixels.length ≠ 64 then Option.none
  else
    let acc := (List.zip amg_positions pixels).foldl gaze_step (0, 0, 100, 0)
    let x := acc.1 / 64 / sensitivity
    let y := -acc.2.1 / 64 / sensitivity
    let x := max (-1) (min 1 x)
    let y := max (-1) (min 1 y)
    let magnitude := max 0 (min 50 (acc.2.2.2 - 20))
    some (x, y, magnitude)

/-- thermal_tracker.py ThermalTracker.send_eye_position (lines 168-192):
one coordinate of the 0x20 payload.  int() truncates, then the result is
clamped to 0..255 (127.5 = 255/2). -/
def send_eye_position_byte (v : ℚ) : ℤ :=
  let b := pyInt ((v + 1) * (255 / 2))
  max 0 (min 255 b)

/-- One CSV cell as written by Python's csv module in
animation_protocol.py.  A cell stands for the string the writer would
emit (str() of the value; None becomes the empty string).  Keeping the
cells typed models the string layer exactly: str/int, repr/float and
str/bool round-trip losslessly in Python, and the decimal repr of a
number never equals any of the literals ("eye", "mouth", "None",
"true") that the readers compare cells against. -/
inductive Cell where
  | s (v : String)
  | i (n : ℤ)
  | q (v : ℚ)
  | b (v : Bool)
  | noneV
  deriving DecidableEq

/-- Python equality of a cell's string form with a string literal, as in
row["type"] == "eye" or row["eye_x"] != "None".  Numeric reprs are
decimal numerals and never equal the literals the loaders use. -/
def Cell.eqStr : Cell → String → Bool
  | .s v, w => v == w
  | .b v, w => (if v then "True" else "False") == w
  | .noneV, w => "" == w
  | _, _ => false

/-- Python float() applied to a cell's string form.  Option.none models
the raised ValueError (on the empty string of a None cell, on "True"/
"False", or on a non-numeric string). -/
def Cell.pyFloat : Cell → Option ℚ
  | .i n => some (n : ℚ)
  | .q v => some v
  | _ => Option.none

/-- Python `cell.lower() == "true"` on a cell's string form: True and
False cells lower to "true"/"false". -/
def Cell.lowerIsTrue : Cell → Bool
  | .b v => v
  | .s v => v.toLower == "true"
  | _ => false

/-- One element of the editor's eye_data list: the Python tuple
(time_ms, x, y, left_blink, right_blink, both_eyes). -/
structure EyeSample where
  time_ms : ℤ
  x : ℚ
  y : ℚ
  left_blink : Bool
  right_blink : Bool
  both_eyes : Bool
  deriving DecidableEq

/-- One element of the editor's mouth_data list: the Python tuple
(time_ms, position). -/
structure MouthSample where
  time_ms : ℤ
  position : ℤ
  deriving DecidableEq

/-- animation_protocol.py EyeFrame. -/
structure EyeFrame where
  time_ms : ℤ
  x : ℚ
  y : ℚ
  left_closed : Bool
  right_closed : Bool
  both_closed : Bool
  deriving DecidableEq

/-- animation_protocol.py MouthFrame. -/
structure MouthFrame where
  time_ms : ℤ
  position : ℤ
  deriving DecidableEq

/-- The EyeFrame that load_bundle reconstructs from a well-formed eye
row written for the sample e. -/
def eye_sample_frame (e : EyeSample) : EyeFrame :=
  { time_ms := e.time_ms, x := e.x, y := e.y, left_closed := e.left_blink,
    right_closed := e.right_blink, both_closed := e.both_eyes }

/-- The MouthFrame that load_bundle reconstructs from a well-formed
mouth row written for the sample m. -/
def mouth_sample_frame (m : MouthSample) : MouthFrame :=
  { time_ms := m.time_ms, position := m.position }

/-- The CSV header built by save_bundle and save_to_csv: the eye value
columns appear only when eye_data is non-empty, the mouth column only
when mouth_data is non-empty. -/
def bundle_header (eye_data : List EyeSample) (mouth_data : List MouthSample) :
    List String :=
  ["time_ms", "type"]
    ++ (if eye_data.isEmpty then [] else
        ["eye_x", "eye_y", "left_eye_closed", "right_eye_closed", "both_eyes_closed"])
    ++ (if mouth_data.isEmpty then [] else ["mouth_position"])

/-- The CSV data row save_bundle and save_to_csv write for one eye
sample; a trailing None placeholder is appended when mouth data
exists. -/
def eye_row (mouth_nonempty : Bool) (e : EyeSample) : List Cell :=
  [.i e.time_ms, .s "eye", .q e.x, .q e.y, .b e.left_blink, .b e.right_blink,
   .b e.both_eyes] ++ (if mouth_nonempty then [.noneV] else [])

/-- The CSV data row save_bundle and save_to_csv write for one mouth
sample; with eye data present the row pads the five eye columns with
None. -/
def mouth_row (eye_nonempty : Bool) (m : MouthSample) : List Cell :=
  if eye_nonempty then
    [.i m.time_ms, .s "mouth", .noneV, .noneV, .noneV, .noneV, .noneV, .i m.position]
  else
    [.i m.time_ms, .s "mouth", .i m.position]

/-- The data rows of animation.csv as save_bundle writes them
(animation_protocol.py lines 126-138): all eye rows in input order,
then all mouth rows in input order, with no sorting. -/
def bundle_rows (eye_data : List EyeSample) (mouth_data : List MouthSample) :
    List (List Cell) :=
  eye_data.map (eye_row (!mouth_data.isEmpty))
    ++ mouth_data.map (mouth_row (!eye_data.isEmpty))

/-- The manifest.json written by save_bundle. -/
structure Manifest where
  version : String
  created : String
  audio_file : Option String
  audio_format : Option String
  frame_count : ℕ
  deriving DecidableEq

/-- The archive produced by save_bundle: the optional audio.dat entry,
the animation.csv header and data rows, and the manifest. -/
structure SavedBundle where
  audio_dat : Option (List ℕ)
  header : List String
  rows : List (List Cell)
  manifest : Manifest
  deriving DecidableEq

/-- animation_protocol.py FileFormat.save_bundle (lines 90-156).  audio
models the optional audio_path argument pointing at an existing file:
(basename, extension, file bytes); Option.none models audio_path None.
created is the datetime.now() timestamp, passed in. -/
def save_bundle (created : String) (audio : Option (String × String × List ℕ))
    (eye_data : List EyeSample) (mouth_data : List MouthSample) : SavedBundle :=
  { audio_dat := audio.map fun a => a.2.2
    header := bundle_header eye_data mouth_data
    rows := bundle_rows eye_data mouth_data
    manifest :=
      { version := "1.0"
        created := created
        audio_file := audio.map fun a => a.1
        audio_format := audio.map fun a => a.2.1
        frame_count := eye_data.length + mouth_data.length } }

/-- The index of a named column in the CSV header (first match). -/
def col_index (name : String) : List String → Option ℕ
  | [] => Option.none
  | h :: t => if h == name then some 0 else (col_index name t).map (· + 1)

/-- csv.DictReader's view of one data row: the cell under a header
name.  Option.none models the KeyError raised when the column does not
exist. -/
def col (header : List String) (row : List Cell) (name : String) : Option Cell :=
  (col_index name header).bind fun j => row.get? j

/-- The body of the row loop of FileFormat.load_bundle
(animation_protocol.py lines 186-218): convert time_ms with
int(float(.)), dispatch on the type column, read the eye or mouth value
columns with their "None" defaults, and skip rows of any other type.
Except.error models the exception that load_bundle re-raises. -/
def parse_row (header : List String) (row : List Cell) :
    Except String (Option (EyeFrame ⊕ MouthFrame)) :=
  match col header row "time_ms" with
  | Option.none => .error "KeyError: time_ms"
  | some tc =>
    match tc.pyFloat with
    | Option.none => .error "ValueError: time_ms"
    | some tq =>
      match col header row "type" with
      | Option.none => .error "KeyError: type"
      | some ty =>
        if ty.eqStr "eye" then
          match col header row "eye_x", col header row "eye_y",
                col header row "left_eye_closed", col header row "right_eye_closed",
                col header row "both_eyes_closed" with
          | some xc, some yc, some lc, some rc, some bc =>
            match (if xc.eqStr "None" then some (1/2 : ℚ) else xc.pyFloat),
                  (if yc.eqStr "None" then some (1/2 : ℚ) else yc.pyFloat) with
            | some x, some y =>
              .ok (some (Sum.inl
                { time_ms := pyInt tq, x := x, y := y,
                  left_closed := lc.lowerIsTrue, right_closed := rc.lowerIsTrue,
                  both_closed := bc.lowerIsTrue }))
            | _, _ => .error "ValueError: eye position"
          | _, _, _, _, _ => .error "KeyError: eye columns"
        else if ty.eqStr "mouth" then
          match col header row "mouth_position" with
          | Option.none => .error "KeyError: mouth_position"
          | some pc =>
            if pc.eqStr "None" then
              .ok (some (Sum.inr { time_ms := pyInt tq, position := 128 }))
            else
              match pc.pyFloat with
              | some pv =>
                .ok (some (Sum.inr { time_ms := pyInt tq, position := pyInt pv }))
              | Option.none => .error "ValueError: mouth_position"
        else .ok Option.none

/-- The row loop of FileFormat.load_bundle: rows are processed in file
order, appending eye frames and mouth frames to their lists; the first
raised exception aborts the load. -/
def load_rows (header : List String) :
    List (List Cell) → Except String (List EyeFrame × List MouthFrame)
  | [] => .ok ([], [])
  | r :: rs =>
    match parse_row header r with
    | .error msg => .error msg
    | .ok fr =>
      match load_rows header rs with
      | .error msg => .error msg
      | .ok (es, ms) =>
        match fr with
        | some (.inl e) => .ok (e :: es, ms)
        | some (.inr m) => .ok (es, m :: ms)
        | Option.none => .ok (es, ms)

/-- The AnimationBundle record returned by load_bundle. -/
structure AnimationBundle where
  audio_file : Option String
  audio_data : Option (List ℕ)
  eye_frames : List EyeFrame
  mouth_frames : List MouthFrame
  metadata : Manifest
  deriving DecidableEq

/-- animation_protocol.py FileFormat.load_bundle (lines 162-230): read
the manifest, the optional audio.dat bytes verbatim, and the animation
CSV through DictReader. -/
def load_bundle (sb : SavedBundle) : Except String AnimationBundle :=
  match load_rows sb.header sb.rows with
  | .error msg => .error msg
  | .ok (es, ms) =>
    .ok { audio_file := sb.manifest.audio_file
          audio_data := sb.audio_dat
          eye_frames := es
          mouth_frames := ms
          metadata := sb.manifest }

/-- The key of a CSV data row used by save_to_csv's sort: its first
element, the integer time_ms. -/
def row_time : List Cell → ℤ
  | .i t :: _ => t
  | _ => 0

/-- The sort order of save_to_csv: ascending row_time. -/
def row_le (a b : List Cell) : Prop := row_time a ≤ row_time b

instance : DecidableRel row_le := fun a b => inferInstanceAs (Decidable (_ ≤ _))

instance : IsTotal (List Cell) row_le := ⟨fun a b => le_total (row_time a) (row_time b)⟩

instance : IsTrans (List Cell) row_le := ⟨fun _ _ _ h1 h2 => le_trans h1 h2⟩

/-- Python's list.sort with key row[0], as used by save_to_csv
(animation_protocol.py line 276).  list.sort is a stable sort by the
key, and any two stable sorts by the same key agree on every input, so
insertion sort models it exactly. -/
def py_sort_by_time (l : List (List Cell)) : List (List Cell) :=
  l.insertionSort row_le

/-- The data rows of the CSV written by FileFormat.save_to_csv
(animation_protocol.py lines 232-277): the same eye-then-mouth rows as
save_bundle, but sorted ascending by time_ms before writing. -/
def save_to_csv_rows (eye_data : List EyeSample) (mouth_data : List MouthSample) :
    List (List Cell) :=
  py_sort_by_time (bundle_rows eye_data mouth_data)

/-- The bundlePlayer.py state that apply_eye_movement /
apply_mouth_movement read and write. -/
structure BPState where
  current_eye_x : ℚ
  current_eye_y : ℚ
  left_eye_closed : Bool
  right_eye_closed : Bool
  current_mouth_position : ℤ
  deriving DecidableEq

/-- The bundlePlayer.py initialize_state values (lines 35-50). -/
def initial_bp_state : BPState where
  current_eye_x := 1/2
  current_eye_y := 1/2
  left_eye_closed := false
  right_eye_closed := false
  current_mouth_position := 128

/-- One wire command queued or sent by the bundle player during
playback. -/
inductive BPCmd where
  | eye_position (x y : ℤ)
  | blink_left_start
  | blink_left_end
  | blink_right_start
  | blink_right_end
  | blink_both_start
  | mouth_position (p : ℤ)
  deriving DecidableEq

/-- The frame-selection loop of apply_eye_movement (bundlePlayer.py
lines 247-252): walk the data keeping the last frame with time_ms at or
below the playback clock, stopping at the first later frame. -/
def pick_frame_eye (t : ℤ) : List EyeSample → Option EyeSample → Option EyeSample
  | [], acc => acc
  | f :: fs, acc => if f.time_ms ≤ t then pick_frame_eye t fs (some f) else acc

/-- The frame apply_eye_movement plays at clock t. -/
def frame_to_play_eye (data : List EyeSample) (t : ℤ) : Option EyeSample :=
  pick_frame_eye t data Option.none

/-- The frame-selection loop of apply_mouth_movement (bundlePlayer.py
lines 287-292). -/
def pick_frame_mouth (t : ℤ) : List MouthSample → Option MouthSample → Option MouthSample
  | [], acc => acc
  | f :: fs, acc => if f.time_ms ≤ t then pick_frame_mouth t fs (some f) else acc

/-- The frame apply_mouth_movement plays at clock t. -/
def frame_to_play_mouth (data : List MouthSample) (t : ℤ) : Option MouthSample :=
  pick_frame_mouth t data Option.none

/-- bundlePlayer.py BundlePlayer.apply_eye_movement (lines 245-284):
queue an eye-position command only when the sampled frame's (x, y)
differs from the player's current state, then queue blink edge commands
only on changes of the latched closed flags. -/
def apply_eye_movement (t : ℤ) (eye_data : List EyeSample) (s : BPState) :
    BPState × List BPCmd :=
  match frame_to_play_eye eye_data t with
  | Option.none => (s, [])
  | some f =>
    let sp :=
      if f.x ≠ s.current_eye_x ∨ f.y ≠ s.current_eye_y then
        ({ s with current_eye_x := f.x, current_eye_y := f.y },
         [BPCmd.eye_position (pyInt (f.x * 255)) (pyInt (f.y * 255))])
      else (s, [])
    let s := sp.1
    let cmds := sp.2
    if f.both_eyes then
      if !(s.left_eye_closed && s.right_eye_closed) then
        ({ s with left_eye_closed := true, right_eye_closed := true },
         cmds ++ [BPCmd.blink_both_start])
      else (s, cmds)
    else
      let sp2 :=
        if f.left_blink ≠ s.left_eye_closed then
          ({ s with left_eye_closed := f.left_blink },
           cmds ++ [if f.left_blink then BPCmd.blink_left_start else BPCmd.blink_left_end])
        else (s, cmds)
      let s := sp2.1
      let cmds := sp2.2
      if f.right_blink ≠ s.right_eye_closed then
        ({ s with right_eye_closed := f.right_blink },
         cmds ++ [if f.right_blink then BPCmd.blink_right_start else BPCmd.blink_right_end])
      else (s, cmds)

/-- bundlePlayer.py BundlePlayer.apply_mouth_movement (lines 286-298):
send the sampled position only when it differs from the current one. -/
def apply_mouth_movement (t : ℤ) (mouth_data : List MouthSample) (s : BPState) :
    BPState × List BPCmd :=
  match frame_to_play_mouth mouth_data t with
  | Option.none => (s, [])
  | some f =>
    if f.position ≠ s.current_mouth_position then
      ({ s with current_mouth_position := f.position }, [BPCmd.mouth_position f.position])
    else (s, [])

/-- bundlePlayer.py BundlePlayer.playback_movements (lines 300-304). -/
def playback_movements (t : ℤ) (eye_data : List EyeSample)
    (mouth_data : List MouthSample) (s : BPState) : BPState × List BPCmd :=
  let sp := if eye_data.isEmpty then (s, []) else apply_eye_movement t eye_data s
  let sq := if mouth_data.isEmpty then (sp.1, []) else apply_mouth_movement t mouth_data sp.1
  (sq.1, sp.2 ++ sq.2)

/-- The end-of-animation reference time of the no-audio branch of
BundlePlayer.update (bundlePlayer.py lines 316-320): the time_ms of the
last element of each track (not their maximum over the whole track),
accumulated over max starting from 0. -/
def bp_max_time (eye_data : List EyeSample) (mouth_data : List MouthSample) : ℤ :=
  let m : ℤ := 0
  let m := match eye_data.getLast? with
    | some f => max m f.time_ms
    | Option.none => m
  match mouth_data.getLast? with
  | some f => max m f.time_ms
  | Option.none => m

/-- bundlePlayer.py BundlePlayer.update (lines 306-328) while playing
with no audio loaded: t is the integer millisecond playback clock.  The
Bool is update's return value; the commands are those queued or sent by
playback_movements on this tick. -/
def bp_update (eye_data : List EyeSample) (mouth_data : List MouthSample)
    (t : ℤ) (s : BPState) : Bool × BPState × List BPCmd :=
  let mt := bp_max_time eye_data mouth_data
  if mt > 0 ∧ t ≥ mt + 100 then (false, s, [])
  else
    let sp := playback_movements t eye_data mouth_data s
    (true, sp.1, sp.2)

/-- The no-audio play loop of BundlePlayer.play_bundle with loop=False
(bundlePlayer.py lines 341-344): update is called at each successive
clock value of ticks until it returns False; the result collects the
commands of every executed tick in order. -/
def bp_run (eye_data : List EyeSample) (mouth_data : List MouthSample) :
    List ℤ → BPState → BPState × List BPCmd
  | [], s => (s, [])
  | t :: ts, s =>
    match bp_update eye_data mouth_data t s with
    | (false, sf, _) => (sf, [])
    | (true, sc, cmds) =>
      let r := bp_run eye_data mouth_data ts sc
      (r.1, cmds ++ r.2)

/-- The encoding the claim describes for the thermal tracker: round to
the nearest byte (at the single half-integer input the conventions
differ, but the counterexample below avoids it), then clamp. -/
def spec_round_byte (v : ℚ) : ℤ :=
  max 0 (min 255 ⌊(v + 1) * (255 / 2) + 1/2⌋)

/-- The claim's weighted sum Σ x_i·T_i over the 64 grid positions. -/
def spec_weighted_x (pixels : List ℚ) : ℚ :=
  (List.zipWith (fun p t => p.1 * t) amg_positions pixels).sum

/-- The claim's weighted sum Σ y_i·T_i over the 64 grid positions. -/
def spec_weighted_y (pixels : List ℚ) : ℚ :=
  (List.zipWith (fun p t => p.2 * t) amg_positions pixels).sum

/-- The claim's max(T): the maximum temperature of the pixel list. -/
def spec_max_temp : List ℚ → ℚ
  | [] => 0
  | h :: t => t.foldl max h

/-- The CSV header written when both tracks are non-empty. -/
def header_eye_mouth : List String :=
  ["time_ms", "type", "eye_x", "eye_y", "left_eye_closed", "right_eye_closed",
   "both_eyes_closed", "mouth_position"]

/-- The CSV header written when only the eye track is non-empty. -/
def header_eye_only : List String :=
  ["time_ms", "type", "eye_x", "eye_y", "left_eye_closed", "right_eye_closed",
   "both_eyes_closed"]

/-- The CSV header written when only the mouth track is non-empty. -/
def header_mouth_only : List String := ["time_ms", "type", "mouth_position"]

/-! Theorems settling the claims. -/

/-- C1 counterexample: starting from the initial eyes.py state, in which
auto_movement is on, processing 0x01 (controller attached), 0x10 (auto
movement off) and 0x00 (controller detached) leaves auto_movement off,
not on as the claim states: the 0x10 received while attached overwrote
the stored snapshot that 0x00 then restored. -/
theorem C1_counterexample :
    initial_eye_state.auto_movement = true
    ∧ (process_udp_messages initial_eye_state
        [Msg.joystick_connected, Msg.auto_movement_off,
         Msg.joystick_disconnected]).auto_movement = false :=
  ⟨rfl, rfl⟩

/-- C1 (amended): from any state with auto_movement on, 0x01 snapshots
the on-state and forces the live flag off; a 0x10 received while
attached updates only the stored snapshot, leaving the live flag
unchanged; 0x00 then restores the updated snapshot, so the sequence
0x01; 0x10; 0x00 leaves auto_movement off. -/
theorem C1_takeover_sequence (s : EyeState) (h : s.auto_movement = true) :
    (apply_udp_message s Msg.joystick_connected).auto_movement = false
    ∧ (apply_udp_message s Msg.joystick_connected).prev_auto_movement = true
    ∧ (apply_udp_message (apply_udp_message s Msg.joystick_connected)
        Msg.auto_movement_off).auto_movement = false
    ∧ (apply_udp_message (apply_udp_message s Msg.joystick_connected)
        Msg.auto_movement_off).prev_auto_movement = false
    ∧ (process_udp_messages s [Msg.joystick_connected, Msg.auto_movement_off,
        Msg.joystick_disconnected]).auto_movement = false := by
  simp [process_udp_messages, apply_udp_message, h]

/-- C1 witness: the amended takeover sequence evaluated at the initial
eyes.py state. -/
theorem C1_takeover_sequence_witness :
    initial_eye_state.auto_movement = true
    ∧ (process_udp_messages initial_eye_state
        [Msg.joystick_connected, Msg.auto_movement_off,
         Msg.joystick_disconnected]).auto_movement = false
    ∧ (apply_udp_message initial_eye_state Msg.joystick_connected).prev_auto_movement
      = true :=
  ⟨rfl, (C1_takeover_sequence initial_eye_state rfl).2.2.2.2,
   (C1_takeover_sequence initial_eye_state rfl).2.1⟩

/-- C2: eyes.py frame() overwrites the UDP-commanded eyelid positions
from the blink latches (lines 597-605) before the override branch
(lines 644-649) reads them back.  With auto_blink off, no blink active
and both commanded positions at 1 (a 0x30/0x31 with p = 255 was just
processed), the rendered lid weights are all 0 instead of the commanded
1: explicit eyelid commands never reach the rendered weights. -/
theorem C2_eyelid_command_clobbered :
    (frame_eyelids false false false 1 1 (3/10) 0).leftUpperLidWeight = 0
    ∧ (frame_eyelids false false false 1 1 (3/10) 0).leftLowerLidWeight = 0
    ∧ (frame_eyelids false false false 1 1 (3/10) 0).rightUpperLidWeight = 0
    ∧ (frame_eyelids false false false 1 1 (3/10) 0).rightLowerLidWeight = 0
    ∧ ((1 : ℚ) ≠ 0) := by
  refine ⟨rfl, rfl, rfl, rfl, ?_⟩
  norm_num

/-- C3 counterexample: a datagram with the undefined opcode 0x99 makes
decode_message raise; udp_thread catches only socket.error, so the
receive thread dies and the following well-formed 0x10 datagram is
never decoded or applied — auto_movement stays on even though an
auto-movement-off command was sent after the malformed packet.  This
refutes the claim that the actor continues to receive and apply
subsequent commands. -/
theorem C3_counterexample :
    udp_thread_run [[0x99], [0x10]] = []
    ∧ decode_message [0x10] = some Msg.auto_movement_off
    ∧ (process_udp_messages initial_eye_state
        (udp_thread_run [[0x99], [0x10]])).auto_movement = true
    ∧ (process_udp_messages initial_eye_state
        [Msg.auto_movement_off]).auto_movement = false :=
  ⟨rfl, rfl, rfl, rfl⟩

/-- C3 (amended): decode_message rejects empty datagrams, undefined
opcodes and too-short 0x20/0x30/0x31 payloads; because udp_thread
catches only socket.error, the receive thread processes exactly the
longest prefix of decodable datagrams — the first rejected datagram
terminates it and every later datagram is dropped unprocessed, while
state already applied is undisturbed. -/
theorem C3_malformed_packet_kills_thread :
    (∀ ds : List (List ℕ),
      udp_thread_run ds
        = (ds.takeWhile fun d => (decode_message d).isSome).filterMap decode_message)
    ∧ ∀ (d : List ℕ) (ds : List (List ℕ)),
        decode_message d = Option.none → udp_thread_run (d :: ds) = [] := by
  constructor
  · intro ds
    induction ds with
    | nil => rfl
    | cons d ds ih =>
      cases hd : decode_message d with
      | none => simp [udp_thread_run, hd, List.takeWhile]
      | some m => simp [udp_thread_run, hd, List.takeWhile, ih]
  · intro d ds hd
    simp [udp_thread_run, hd]

/-- C3 witness: the amended statement applied to the malformed datagram
0x99 followed by a well-formed datagram. -/
theorem C3_malformed_packet_kills_thread_witness :
    decode_message [0x99] = Option.none
    ∧ udp_thread_run [[0x99], [0x11]] = [] :=
  ⟨rfl, C3_malformed_packet_kills_thread.2 [0x99] [[0x11]] rfl⟩

/-- C10: a 0x20 gaze-target message processed while joystick_connected
is false leaves the eye actor state entirely unchanged; while a
controller is attached the same message updates exactly the stored gaze
target.  External gaze commands therefore take effect only between a
0x01 and the following 0x00. -/
theorem C10_gaze_requires_attach (s : EyeState) (x y : ℚ) :
    (s.joystick_connected = false → apply_udp_message s (Msg.joystick x y) = s)
    ∧ (s.joystick_connected = true →
        apply_udp_message s (Msg.joystick x y)
          = { s with joystick_x := x, joystick_y := y }) := by
  constructor
  · intro h
    simp [apply_udp_message, h]
  · intro h
    simp [apply_udp_message, h]

/-- C10 witness: the gaze message is a no-op at the initial eyes.py
state, whose joystick_connected is false. -/
theorem C10_gaze_requires_attach_witness :
    initial_eye_state.joystick_connected = false
    ∧ apply_udp_message initial_eye_state (Msg.joystick (1/2) (1/2))
      = initial_eye_state :=
  ⟨rfl, (C10_gaze_requires_attach initial_eye_state (1/2) (1/2)).1 rfl⟩

/-- Python int() of an integer-valued rational is that integer. -/
theorem pyInt_intCast (n : ℤ) : pyInt (n : ℚ) = n := by
  unfold pyInt
  split
  · exact Int.floor_intCast n
  · exact Int.ceil_intCast n

/-- C8 counterexample: at v = 1/425 the scaled value is 127.8; the
source's int() truncates to 127 while the claim's rounding gives 128
(this input is not a rounding tie, so every rounding convention agrees
on 128). -/
theorem C8_counterexample :
    send_eye_position_byte (1/425) = 127
    ∧ spec_round_byte (1/425) = 128
    ∧ (127 : ℤ) ≠ 128 := by
  refine ⟨?_, ?_, by decide⟩
  · unfold send_eye_position_byte pyInt
    norm_num
  · unfold spec_round_byte
    norm_num

/-- C8 (amended): for v in [-1, 1] the byte sent in the 0x20 packet is
the floor (truncation) of (v + 1) * 127.5, and the clamp to 0..255 is
inert on this range. -/
theorem C8_truncation_encoding (v : ℚ) (h1 : -1 ≤ v) (h2 : v ≤ 1) :
    send_eye_position_byte v = ⌊(v + 1) * (255 / 2)⌋ := by
  have h0 : (0 : ℚ) ≤ (v + 1) * (255 / 2) := by nlinarith
  have hub : (v + 1) * (255 / 2) ≤ (255 : ℚ) := by nlinarith
  have hf0 : (0 : ℤ) ≤ ⌊(v + 1) * (255 / 2)⌋ := Int.floor_nonneg.mpr h0
  have hf255 : ⌊(v + 1) * (255 / 2)⌋ ≤ 255 := by
    have h3 : ⌊(v + 1) * (255 / 2)⌋ ≤ ⌊(255 : ℚ)⌋ := Int.floor_le_floor hub
    have h4 : ⌊(255 : ℚ)⌋ = 255 := by norm_num
    omega
  have hb : send_eye_position_byte v = max 0 (min 255 (pyInt ((v + 1) * (255 / 2)))) := rfl
  rw [hb]
  unfold pyInt
  rw [if_pos h0, min_eq_right hf255, max_eq_right hf0]

/-- C8 witness: the amended encoding evaluated at v = 0, where the byte
is 127. -/
theorem C8_truncation_encoding_witness :
    (-1 : ℚ) ≤ 0 ∧ (0 : ℚ) ≤ 1
    ∧ send_eye_position_byte 0 = ⌊((0 : ℚ) + 1) * (255 / 2)⌋ :=
  ⟨by norm_num, by norm_num, C8_truncation_encoding 0 (by norm_num) (by norm_num)⟩

/-- C5 counterexample: with the strictly monotonic eye track at times
10, 30 and mouth track at time 20, save_bundle writes the data rows in
the order 10, 30, 20 — all eye rows before all mouth rows, not sorted
ascending by time_ms as the claim states. -/
theorem C5_counterexample :
    List.Chain' (fun a b : EyeSample => a.time_ms < b.time_ms)
      [⟨10, 0, 0, false, false, false⟩, ⟨30, 0, 0, false, false, false⟩]
    ∧ List.Chain' (fun a b : MouthSample => a.time_ms < b.time_ms) [⟨20, 100⟩]
    ∧ (save_bundle "" Option.none
        [⟨10, 0, 0, false, false, false⟩, ⟨30, 0, 0, false, false, false⟩]
        [⟨20, 100⟩]).rows.map row_time = [10, 30, 20]
    ∧ ¬ List.Chain' (fun a b : ℤ => a ≤ b) [10, 30, 20] := by
  refine ⟨?_, ?_, rfl, ?_⟩
  · simp [List.chain'_cons, List.chain'_singleton]
  · simp [List.chain'_singleton]
  · simp [List.chain'_cons, List.chain'_singleton]

/-- Filtering the rows of one time key commutes with ordered insertion:
the inserted row lands before every row with an equal or larger key. -/
theorem filter_time_orderedInsert (t : ℤ) (r : List Cell) (l : List (List Cell)) :
    (List.orderedInsert row_le r l).filter (fun x => row_time x == t)
      = if row_time r = t
        then r :: l.filter (fun x => row_time x == t)
        else l.filter (fun x => row_time x == t) := by
  induction l with
  | nil =>
    by_cases h : row_time r = t
    · simp [List.orderedInsert, List.filter, h]
    · simp [List.orderedInsert, List.filter, h, beq_eq_false_iff_ne.mpr h]
  | cons a as ih =>
    by_cases hle : row_le r a
    · by_cases h : row_time r = t <;>
        simp [List.orderedInsert, hle, List.filter_cons, h]
    · have hlt : row_time a < row_time r := by
        have := lt_of_not_le (fun hc => hle hc)
        exact this
      by_cases h : row_time r = t
      · have ha : row_time a ≠ t := by omega
        simp [List.orderedInsert, hle, List.filter_cons, h, ha, ih]
      · by_cases ha : row_time a = t <;>
          simp [List.orderedInsert, hle, List.filter_cons, h, ha, ih]

/-- Stability of the save_to_csv sort: for every time key, the rows
carrying that key appear in the sorted output exactly as they appear in
the input. -/
theorem filter_time_py_sort (t : ℤ) (l : List (List Cell)) :
    (py_sort_by_time l).filter (fun x => row_time x == t)
      = l.filter (fun x => row_time x == t) := by
  unfold py_sort_by_time
  induction l with
  | nil => rfl
  | cons a as ih =>
    simp only [List.insertionSort]
    rw [filter_time_orderedInsert]
    by_cases h : row_time a = t <;> simp [h, ih, List.filter_cons]

/-- C5 (amended): save_bundle writes the animation.csv data rows as all
eye rows in input order followed by all mouth rows in input order,
without sorting; the legacy save_to_csv path is the one that sorts,
ascending by time_ms and stably — rows with equal time_ms keep the
input order. -/
theorem C5_sort_behaviour (created : String) (audio : Option (String × String × List ℕ))
    (eye_data : List EyeSample) (mouth_data : List MouthSample) :
    (save_bundle created audio eye_data mouth_data).rows
      = eye_data.map (eye_row (!mouth_data.isEmpty))
        ++ mouth_data.map (mouth_row (!eye_data.isEmpty))
    ∧ List.Sorted row_le (save_to_csv_rows eye_data mouth_data)
    ∧ ∀ t : ℤ,
        (save_to_csv_rows eye_data mouth_data).filter (fun x => row_time x == t)
          = (bundle_rows eye_data mouth_data).filter (fun x => row_time x == t) :=
  ⟨rfl, List.sorted_insertionSort row_le (bundle_rows eye_data mouth_data),
   fun t => filter_time_py_sort t (bundle_rows eye_data mouth_data)⟩

/-- C6 counterexample: at x = 1/255 the encoder produces byte 1, but the
eye actor's decoder formats 1/255 with two decimal places and parses
back 0.00 — the round trip yields 0, not 1/255, and the error 1/255
exceeds the claimed bound 1/510. -/
theorem C6_counterexample :
    decode_gaze_byte (encode_gaze_byte (1/255)) = 0
    ∧ ((0 : ℚ) ≠ 1/255)
    ∧ ¬ |decode_gaze_byte (encode_gaze_byte (1/255)) - 1/255| ≤ 1/510 := by
  have h1 : encode_gaze_byte ((1 : ℚ)/255) = 1 := by
    unfold encode_gaze_byte pyInt
    norm_num
  have h2 : decode_gaze_byte 1 = 0 := by
    unfold decode_gaze_byte pyRound2
    norm_num
  refine ⟨by rw [h1, h2], by norm_num, ?_⟩
  rw [h1, h2]
  rw [zero_sub, abs_neg, abs_of_nonneg (by norm_num : (0 : ℚ) ≤ 1/255)]
  norm_num

/-- C6 (amended): the encoder truncates x·255 and the decoder returns
the two-decimal rounding of byte/255, so the round trip on x = k/255
yields that rounding, which equals k/255 exactly when 51 divides k
(k in {0, 51, 102, 153, 204, 255}); for arbitrary y in [0, 1] the round
trip error is bounded by 1/255 + 1/200 (truncation plus hundredths
quantisation), not by 1/510. -/
theorem C6_quantisation_amended :
    (∀ k : ℕ, k ≤ 255 →
      decode_gaze_byte (encode_gaze_byte ((k : ℚ) / 255)) = pyRound2 ((k : ℚ) / 255)
      ∧ (decode_gaze_byte (encode_gaze_byte ((k : ℚ) / 255)) = (k : ℚ) / 255 ↔ 51 ∣ k))
    ∧ ∀ y : ℚ, 0 ≤ y → y ≤ 1 →
      |decode_gaze_byte (encode_gaze_byte y) - y| ≤ 1/255 + 1/200 := by
  constructor
  · intro k _
    have henc : encode_gaze_byte ((k : ℚ) / 255) = (k : ℤ) := by
      have hm : ((k : ℚ) / 255) * 255 = ((k : ℤ) : ℚ) := by
        push_cast
        exact div_mul_cancel₀ _ (by norm_num)
      unfold encode_gaze_byte
      rw [hm, pyInt_intCast]
    have hdec : decode_gaze_byte ((k : ℤ)) = pyRound2 ((k : ℚ) / 255) := by
      unfold decode_gaze_byte
      push_cast
      rfl
    refine ⟨by rw [henc, hdec], ?_⟩
    rw [henc, hdec]
    unfold pyRound2
    constructor
    · intro heq
      set c := ⌊(k : ℚ) / 255 * 100 + 1/2⌋ with hcdef
      have hq : (c : ℚ) * 255 = 100 * (k : ℚ) := by
        field_simp at heq
        linarith
      have hz : c * 255 = 100 * (k : ℤ) := by
        exact_mod_cast hq
      have h51 : (51 : ℤ) ∣ 20 * (k : ℤ) := ⟨c, by linarith⟩
      have h51n : (51 : ℕ) ∣ 20 * k := by
        have hcast : ((51 : ℕ) : ℤ) ∣ ((20 * k : ℕ) : ℤ) := by
          push_cast
          exact h51
        exact_mod_cast hcast
      exact Nat.Coprime.dvd_of_dvd_mul_left (by norm_num) h51n
    · intro hk
      obtain ⟨m, rfl⟩ := hk
      have hval : ((51 * m : ℕ) : ℚ) / 255 * 100 + 1/2 = ((20 * (m : ℤ) : ℤ) : ℚ) + 1/2 := by
        push_cast
        ring
      rw [hval, Int.floor_int_add]
      have hhalf : ⌊(1/2 : ℚ)⌋ = 0 := by norm_num
      rw [hhalf]
      push_cast
      field_simp
      ring
  · intro y h0 h1
    have hy : (0 : ℚ) ≤ y * 255 := by positivity
    have hb : encode_gaze_byte y = ⌊y * 255⌋ := by
      unfold encode_gaze_byte pyInt
      rw [if_pos hy]
    rw [hb]
    have hdec : decode_gaze_byte ⌊y * 255⌋
        = ((⌊((⌊y * 255⌋ : ℚ) / 255) * 100 + 1/2⌋ : ℤ) : ℚ) / 100 := rfl
    rw [hdec]
    have hB1 : ((⌊y * 255⌋ : ℤ) : ℚ) ≤ y * 255 := Int.floor_le (y * 255)
    have hB2 : y * 255 < ((⌊y * 255⌋ : ℤ) : ℚ) + 1 := Int.lt_floor_add_one (y * 255)
    have hC1 : ((⌊((⌊y * 255⌋ : ℚ) / 255) * 100 + 1/2⌋ : ℤ) : ℚ)
        ≤ ((⌊y * 255⌋ : ℚ) / 255) * 100 + 1/2 := Int.floor_le _
    have hC2 : ((⌊y * 255⌋ : ℚ) / 255) * 100 + 1/2
        < ((⌊((⌊y * 255⌋ : ℚ) / 255) * 100 + 1/2⌋ : ℤ) : ℚ) + 1 := Int.lt_floor_add_one _
    rw [abs_le]
    constructor
    · linarith
    · linarith

/-- C6 witness: the amended statement evaluated at k = 51 (an exact
round trip) and y = 1/2 (the error bound). -/
theorem C6_quantisation_amended_witness :
    ((51 : ℕ) ≤ 255
     ∧ (decode_gaze_byte (encode_gaze_byte ((51 : ℚ) / 255)) = ((51 : ℕ) : ℚ) / 255
        ↔ (51 : ℕ) ∣ 51))
    ∧ (0 ≤ (1 : ℚ)/2 ∧ (1 : ℚ)/2 ≤ 1
       ∧ |decode_gaze_byte (encode_gaze_byte ((1 : ℚ)/2)) - 1/2| ≤ 1/255 + 1/200) :=
  ⟨⟨by norm_num, by exact_mod_cast (C6_quantisation_amended.1 51 (by norm_num)).2⟩,
   by norm_num, by norm_num,
   C6_quantisation_amended.2 (1/2) (by norm_num) (by norm_num)⟩

/-- C9 counterexample: a two-frame bundle whose second frame repeats the
first frame's values.  The update loop runs with clock samples that hit
both frame times exactly and continues past end-of-animation, yet zero
packets are emitted — the player only sends change commands for the
latest due frame, so the claim that each of the N frames is emitted
exactly once fails. -/
theorem C9_counterexample :
    ([⟨0, 1/2, 1/2, false, false, false⟩,
      ⟨50, 1/2, 1/2, false, false, false⟩] : List EyeSample).length = 2
    ∧ (bp_run [⟨0, 1/2, 1/2, false, false, false⟩,
        ⟨50, 1/2, 1/2, false, false, false⟩] [] [0, 50, 100, 150]
        initial_bp_state).2 = [] := by
  refine ⟨rfl, ?_⟩
  norm_num [bp_run, bp_update, bp_max_time, playback_movements, apply_eye_movement,
    apply_mouth_movement, frame_to_play_eye, pick_frame_eye, List.getLast?,
    initial_bp_state]

/-- C9 (amended): with no audio, the player samples the playback clock:
update returns False exactly at a clock at or past the last frame time
plus 100 ms; on other ticks it applies only the latest frame due,
emitting commands only where the frame differs from the player's
current state (a frame equal to the current state emits nothing); and
the run consumes exactly the clock samples before the first
end-of-animation sample. -/
theorem C9_playback_amended :
    (∀ (ed : List EyeSample) (md : List MouthSample) (t : ℤ) (s : BPState),
        (bp_update ed md t s).1 = false
          ↔ (0 < bp_max_time ed md ∧ bp_max_time ed md + 100 ≤ t))
    ∧ (∀ (ed : List EyeSample) (t : ℤ) (s : BPState) (f : EyeSample),
        frame_to_play_eye ed t = some f →
        f.x = s.current_eye_x → f.y = s.current_eye_y → f.both_eyes = false →
        f.left_blink = s.left_eye_closed → f.right_blink = s.right_eye_closed →
        apply_eye_movement t ed s = (s, []))
    ∧ (∀ (ed : List EyeSample) (md : List MouthSample) (ts : List ℤ) (s : BPState),
        bp_run ed md ts s
          = bp_run ed md
              (ts.takeWhile fun t =>
                !(decide (0 < bp_max_time ed md ∧ bp_max_time ed md + 100 ≤ t))) s) := by
  refine ⟨?_, ?_, ?_⟩
  · intro ed md t s
    unfold bp_update
    by_cases h : bp_max_time ed md > 0 ∧ t ≥ bp_max_time ed md + 100
    · rw [if_pos h]
      simpa using h
    · rw [if_neg h]
      simpa using h
  · intro ed t s f hpick hx hy hb hl hr
    unfold apply_eye_movement
    rw [hpick]
    simp [hx, hy, hb, hl, hr]
  · intro ed md ts
    induction ts with
    | nil => intro s; rfl
    | cons t ts ih =>
      intro s
      by_cases h : bp_max_time ed md > 0 ∧ t ≥ bp_max_time ed md + 100
      · have hupd : bp_update ed md t s = (false, s, []) := by
          unfold bp_update
          rw [if_pos h]
        have htw : (List.takeWhile
            (fun t => !(decide (0 < bp_max_time ed md ∧ bp_max_time ed md + 100 ≤ t)))
            (t :: ts)) = [] := by
          have : decide (0 < bp_max_time ed md ∧ bp_max_time ed md + 100 ≤ t) = true :=
            decide_eq_true h
          simp [List.takeWhile, this]
        rw [htw]
        simp only [bp_run]
        rw [hupd]
      · have hupd : bp_update ed md t s
            = (true, (playback_movements t ed md s).1, (playback_movements t ed md s).2) := by
          unfold bp_update
          rw [if_neg h]
        have hdec : decide (0 < bp_max_time ed md ∧ bp_max_time ed md + 100 ≤ t) = false :=
          decide_eq_false h
        rw [List.takeWhile_cons_of_pos (by simp [hdec])]
        simp only [bp_run]
        rw [hupd]
        simp only []
        rw [ih]

/-- C9 witness: a frame whose values equal the player's current state is
picked but emits no packet. -/
theorem C9_playback_amended_witness :
    frame_to_play_eye [⟨0, 1/2, 1/2, false, false, false⟩] 0
      = some ⟨0, 1/2, 1/2, false, false, false⟩
    ∧ apply_eye_movement 0 [⟨0, 1/2, 1/2, false, false, false⟩] initial_bp_state
      = (initial_bp_state, []) :=
  ⟨rfl, C9_playback_amended.2.1 [⟨0, 1/2, 1/2, false, false, false⟩] 0 initial_bp_state
    ⟨0, 1/2, 1/2, false, false, false⟩ rfl rfl rfl rfl rfl rfl⟩

/-- The centroid fold computes the two weighted sums and the running
min/max of the zipped temperatures. -/
theorem gaze_fold_eq (pos : List (ℚ × ℚ)) :
    ∀ (ts : List ℚ) (a b c d : ℚ),
    (List.zip pos ts).foldl gaze_step (a, b, c, d)
      = (a + (List.zipWith (fun p t => p.1 * t) pos ts).sum,
         b + (List.zipWith (fun p t => p.2 * t) pos ts).sum,
         ((List.zip pos ts).map Prod.snd).foldl min c,
         ((List.zip pos ts).map Prod.snd).foldl max d) := by
  induction pos with
  | nil =>
    intro ts a b c d
    simp
  | cons p ps ih =>
    intro ts a b c d
    cases ts with
    | nil => simp
    | cons t ts =>
      simp only [List.zip_cons_cons, List.foldl_cons, List.zipWith_cons_cons,
        List.sum_cons, List.map_cons, gaze_step]
      rw [ih]
      simp [add_assoc]

/-- Folding max from an extra initial element factors out of the
fold. -/
theorem foldl_max_comm (l : List ℚ) :
    ∀ a h : ℚ, l.foldl max (max a h) = max a (l.foldl max h) := by
  induction l with
  | nil => intro a h; rfl
  | cons x t ih =>
    intro a h
    simp only [List.foldl_cons]
    rw [max_assoc]
    exact ih a (max h x)

/-- The source's max fold started at 0 equals max 0 of the true maximum
of a non-empty list. -/
theorem foldl_max_zero (l : List ℚ) (hne : l ≠ []) :
    l.foldl max 0 = max 0 (spec_max_temp l) := by
  cases l with
  | nil => exact absurd rfl hne
  | cons h t =>
    simp only [List.foldl_cons, spec_max_temp]
    exact foldl_max_comm t 0 h

/-- Starting the max fold at 0 instead of at the true maximum does not
change the clamped magnitude. -/
theorem magnitude_clamp (M : ℚ) :
    max 0 (min 50 (max 0 M - 20)) = max 0 (min 50 (M - 20)) := by
  rcases le_total 0 M with h | h
  · rw [max_eq_right h]
  · rw [max_eq_left h]
    have h1 : min (50 : ℚ) (0 - 20) = 0 - 20 := min_eq_right (by norm_num)
    have h2 : min (50 : ℚ) (M - 20) = M - 20 := min_eq_right (by linarith)
    rw [h1, h2, max_eq_left (by norm_num), max_eq_left (by linarith)]

/-- The second components of a zip with lists of equal length are the
second list. -/
theorem map_snd_zip_len (l1 : List (ℚ × ℚ)) :
    ∀ l2 : List ℚ, l1.length = l2.length → (List.zip l1 l2).map Prod.snd = l2 := by
  induction l1 with
  | nil =>
    intro l2 h
    cases l2 with
    | nil => rfl
    | cons b t => simp at h
  | cons a t ih =>
    intro l2 h
    cases l2 with
    | nil => simp at h
    | cons b t2 =>
      simp only [List.zip_cons_cons, List.map_cons]
      rw [ih t2 (by simpa using h)]

/-- C7: calculate_gaze_direction returns exactly the claim's formulas —
x = (Σ x_i·T_i)/64/S and y = −(Σ y_i·T_i)/64/S each clamped to [−1, 1],
and magnitude = clamp(max(T) − 20, 0, 50) — and raises exactly when the
pixel array length is not 64 (the sensitivity S is positive in every
configured state, so the division is well defined). -/
theorem C7_thermal_centroid (S : ℚ) (pixels : List ℚ) (hS : 0 < S) :
    (pixels.length = 64 →
      calculate_gaze_direction S pixels
        = some (max (-1) (min 1 (spec_weighted_x pixels / 64 / S)),
                max (-1) (min 1 (-spec_weighted_y pixels / 64 / S)),
                max 0 (min 50 (spec_max_temp pixels - 20))))
    ∧ (calculate_gaze_direction S pixels = Option.none ↔ pixels.length ≠ 64) := by
  constructor
  · intro hlen
    have hne : pixels ≠ [] := by
      intro hcon
      rw [hcon] at hlen
      simp at hlen
    have hpos : amg_positions.length = 64 := by decide
    have hsnd : (List.zip amg_positions pixels).map Prod.snd = pixels :=
      map_snd_zip_len amg_positions pixels (by rw [hpos, hlen])
    unfold calculate_gaze_direction
    rw [if_neg (by simp [hlen])]
    rw [gaze_fold_eq]
    simp only [hsnd]
    rw [foldl_max_zero pixels hne, magnitude_clamp]
    simp [spec_weighted_x, spec_weighted_y]
  · constructor
    · intro hnone hlen
      unfold calculate_gaze_direction at hnone
      rw [if_neg (by simp [hlen])] at hnone
      exact Option.some_ne_none _ hnone
    · intro hlen
      unfold calculate_gaze_direction
      rw [if_pos hlen]

/-- C7 witness: the centroid of a uniform 20-degree frame, via the main
theorem at S = 5. -/
theorem C7_thermal_centroid_witness :
    (0 : ℚ) < 5 ∧ (List.replicate 64 (20 : ℚ)).length = 64
    ∧ calculate_gaze_direction 5 (List.replicate 64 20)
      = some (max (-1) (min 1 (spec_weighted_x (List.replicate 64 20) / 64 / 5)),
              max (-1) (min 1 (-spec_weighted_y (List.replicate 64 20) / 64 / 5)),
              max 0 (min 50 (spec_max_temp (List.replicate 64 20) - 20))) :=
  ⟨by norm_num, by simp,
   (C7_thermal_centroid 5 (List.replicate 64 20) (by norm_num)).1 (by simp)⟩

/-- An eye row written under the full header parses back to its frame. -/
theorem parse_eye_row_full (e : EyeSample) :
    parse_row header_eye_mouth (eye_row true e)
      = .ok (some (Sum.inl (eye_sample_frame e))) := by
  have h : parse_row header_eye_mouth (eye_row true e)
      = .ok (some (Sum.inl
          { time_ms := pyInt ((e.time_ms : ℚ)), x := e.x, y := e.y,
            left_closed := e.left_blink, right_closed := e.right_blink,
            both_closed := e.both_eyes })) := rfl
  rw [h, pyInt_intCast]
  rfl

/-- An eye row written under the eye-only header parses back to its
frame. -/
theorem parse_eye_row_only (e : EyeSample) :
    parse_row header_eye_only (eye_row false e)
      = .ok (some (Sum.inl (eye_sample_frame e))) := by
  have h : parse_row header_eye_only (eye_row false e)
      = .ok (some (Sum.inl
          { time_ms := pyInt ((e.time_ms : ℚ)), x := e.x, y := e.y,
            left_closed := e.left_blink, right_closed := e.right_blink,
            both_closed := e.both_eyes })) := rfl
  rw [h, pyInt_intCast]
  rfl

/-- A mouth row written under the full header parses back to its
frame. -/
theorem parse_mouth_row_full (m : MouthSample) :
    parse_row header_eye_mouth (mouth_row true m)
      = .ok (some (Sum.inr (mouth_sample_frame m))) := by
  have h : parse_row header_eye_mouth (mouth_row true m)
      = .ok (some (Sum.inr
          { time_ms := pyInt ((m.time_ms : ℚ)), position := pyInt ((m.position : ℚ)) }))
    := rfl
  rw [h]
  simp only [pyInt_intCast]
  rfl

/-- A mouth row written under the mouth-only header parses back to its
frame. -/
theorem parse_mouth_row_only (m : MouthSample) :
    parse_row header_mouth_only (mouth_row false m)
      = .ok (some (Sum.inr (mouth_sample_frame m))) := by
  have h : parse_row header_mouth_only (mouth_row false m)
      = .ok (some (Sum.inr
          { time_ms := pyInt ((m.time_ms : ℚ)), position := pyInt ((m.position : ℚ)) }))
    := rfl
  rw [h]
  simp only [pyInt_intCast]
  rfl

/-- Loading a block of well-formed eye rows prepends their frames to
whatever the remaining rows load to. -/
theorem load_rows_eyes (hd : List String) (f : EyeSample → List Cell)
    (hp : ∀ e, parse_row hd (f e) = .ok (some (Sum.inl (eye_sample_frame e)))) :
    ∀ (ed : List EyeSample) (rest : List (List Cell)),
      load_rows hd (ed.map f ++ rest)
        = match load_rows hd rest with
          | .error msg => .error msg
          | .ok (es, ms) => .ok (ed.map eye_sample_frame ++ es, ms) := by
  intro ed
  induction ed with
  | nil =>
    intro rest
    simp only [List.map_nil, List.nil_append]
    cases hres : load_rows hd rest with
    | error msg => simp
    | ok p =>
      cases p with
      | mk es ms => simp
  | cons e t ih =>
    intro rest
    simp only [List.map_cons, List.cons_append, load_rows]
    rw [hp e]
    simp only [List.append_eq]
    rw [ih rest]
    cases load_rows hd rest with
    | error msg => simp
    | ok p =>
      cases p with
      | mk es ms => simp

/-- Loading a block of well-formed mouth rows yields exactly their
frames. -/
theorem load_rows_mouths (hd : List String) (g : MouthSample → List Cell)
    (hp : ∀ m, parse_row hd (g m) = .ok (some (Sum.inr (mouth_sample_frame m)))) :
    ∀ md : List MouthSample,
      load_rows hd (md.map g) = .ok ([], md.map mouth_sample_frame) := by
  intro md
  induction md with
  | nil => rfl
  | cons m t ih =>
    simp only [List.map_cons, load_rows]
    rw [hp m, ih]

/-- C4: the bundle round-trip.  For strictly time-monotonic eye and
mouth tracks and any embedded audio bytes, load_bundle of the archive
save_bundle produces returns the eye frames and mouth frames equal to
the inputs in order and values, and the audio bytes verbatim. -/
theorem C4_bundle_round_trip (created : String)
    (audio : Option (String × String × List ℕ))
    (eye_data : List EyeSample) (mouth_data : List MouthSample)
    (hed : List.Chain' (fun a b => a.time_ms < b.time_ms) eye_data)
    (hmd : List.Chain' (fun a b => a.time_ms < b.time_ms) mouth_data) :
    load_bundle (save_bundle created audio eye_data mouth_data)
      = .ok { audio_file := audio.map fun a => a.1
              audio_data := audio.map fun a => a.2.2
              eye_frames := eye_data.map eye_sample_frame
              mouth_frames := mouth_data.map mouth_sample_frame
              metadata := (save_bundle created audio eye_data mouth_data).manifest } := by
  have hrows : load_rows (bundle_header eye_data mouth_data)
      (bundle_rows eye_data mouth_data)
      = .ok (eye_data.map eye_sample_frame, mouth_data.map mouth_sample_frame) := by
    cases eye_data with
    | nil =>
      cases mouth_data with
      | nil => rfl
      | cons m md =>
        have h := load_rows_mouths header_mouth_only (mouth_row false)
          parse_mouth_row_only (m :: md)
        have hh : bundle_header [] (m :: md) = header_mouth_only := rfl
        have hr : bundle_rows [] (m :: md) = (m :: md).map (mouth_row false) := rfl
        rw [hh, hr, h]
        rfl
    | cons e ed =>
      cases mouth_data with
      | nil =>
        have h := load_rows_eyes header_eye_only (eye_row false)
          parse_eye_row_only (e :: ed) []
        have hh : bundle_header (e :: ed) [] = header_eye_only := rfl
        have hr : bundle_rows (e :: ed) [] = (e :: ed).map (eye_row false) ++ [] := rfl
        have hnil : load_rows header_eye_only [] = .ok ([], []) := rfl
        rw [hh, hr, h, hnil]
        simp
      | cons m md =>
        have h2 := load_rows_mouths header_eye_mouth (mouth_row true)
          parse_mouth_row_full (m :: md)
        have h1 := load_rows_eyes header_eye_mouth (eye_row true)
          parse_eye_row_full (e :: ed) ((m :: md).map (mouth_row true))
        rw [h2] at h1
        have hh : bundle_header (e :: ed) (m :: md) = header_eye_mouth := rfl
        have hr : bundle_rows (e :: ed) (m :: md)
            = (e :: ed).map (eye_row true) ++ (m :: md).map (mouth_row true) := rfl
        rw [hh, hr, h1]
        simp
  have hlb : load_bundle (save_bundle created audio eye_data mouth_data)
      = match load_rows (bundle_header eye_data mouth_data)
              (bundle_rows eye_data mouth_data) with
        | .error msg => .error msg
        | .ok (es, ms) =>
          .ok { audio_file := audio.map fun a => a.1
                audio_data := audio.map fun a => a.2.2
                eye_frames := es
                mouth_frames := ms
                metadata := (save_bundle created audio eye_data mouth_data).manifest }
    := rfl
  rw [hlb, hrows]

/-- C4 witness: a three-eye-frame, one-mouth-frame bundle with embedded
audio, via the main theorem. -/
theorem C4_bundle_round_trip_witness :
    List.Chain' (fun a b : EyeSample => a.time_ms < b.time_ms)
      [⟨0, 1/2, 1/2, false, false, false⟩, ⟨40, 1, 0, true, false, false⟩,
       ⟨70, 0, 1, false, true, false⟩]
    ∧ List.Chain' (fun a b : MouthSample => a.time_ms < b.time_ms) [⟨20, 200⟩]
    ∧ load_bundle (save_bundle "2024-01-01T00:00:00"
        (some ("clip.wav", "wav", [1, 2, 3]))
        [⟨0, 1/2, 1/2, false, false, false⟩, ⟨40, 1, 0, true, false, false⟩,
         ⟨70, 0, 1, false, true, false⟩] [⟨20, 200⟩])
      = .ok { audio_file := (some ("clip.wav", "wav", [1, 2, 3])).map fun a => a.1
              audio_data := (some ("clip.wav", "wav", [1, 2, 3])).map fun a => a.2.2
              eye_frames :=
                ([⟨0, 1/2, 1/2, false, false, false⟩, ⟨40, 1, 0, true, false, false⟩,
                  ⟨70, 0, 1, false, true, false⟩] : List EyeSample).map eye_sample_frame
              mouth_frames := ([⟨20, 200⟩] : List MouthSample).map mouth_sample_frame
              metadata := (save_bundle "2024-01-01T00:00:00"
                (some ("clip.wav", "wav", [1, 2, 3]))
                [⟨0, 1/2, 1/2, false, false, false⟩, ⟨40, 1, 0, true, false, false⟩,
                 ⟨70, 0, 1, false, true, false⟩] [⟨20, 200⟩]).manifest } := by
  refine ⟨?_, ?_, ?_⟩
  · simp [List.chain'_cons, List.chain'_singleton]
  · simp [List.chain'_singleton]
  · exact C4_bundle_round_trip "2024-01-01T00:00:00"
      (some ("clip.wav", "wav", [1, 2, 3]))
      [⟨0, 1/2, 1/2, false, false, false⟩, ⟨40, 1, 0, true, false, false⟩,
       ⟨70, 0, 1, false, true, false⟩] [⟨20, 200⟩]
      (by simp [List.chain'_cons, List.chain'_singleton])
      (by simp [List.chain'_singleton])

end PiEyes
